import Mathlib

/-!
Verification of the pylana `LogsAPI` client (src/pylana/modules/logs.py) against
its specification.

The embedding models Python values flowing through the client:
* `PyVal` is the subset of Python/JSON values the client handles;
* `Response` models a `requests.Response`: HTTP status, body text, and the
  result of parsing the body as JSON (carried on the response, since the JSON
  parser itself is the Python standard library, external to this repository);
* exceptions are modelled with `Except PyError`;
* keyword arguments passed through to the transport layer (`**kwargs`) are an
  opaque association list `Kwargs`;
* network calls issued by an operation are recorded as `Call` values so that
  forwarding of transport options can be stated.

`pylana.utils.handle_response` / `expect_json` and `pylana.semantics` are
imported by logs.py but are not part of the sources; they are modelled from
the specification where needed, as marked in their doc comments.
-/

namespace Pylana

/-- The subset of Python/JSON values handled by the client: strings, integers,
booleans, None, lists and string-keyed dicts (in insertion order). -/
inductive PyVal where
  | str (s : String)
  | int (n : Int)
  | bool (b : Bool)
  | null
  | list (l : List PyVal)
  | dict (kvs : List (String × PyVal))
deriving Repr

/-- Exceptions raised by the client code. `exn` is Python's bare `Exception`
with a message (raised by `get_log_id`); `requestError` is the spec's
`RequestError` carrying status and body; `jsonDecodeError` models
`json.JSONDecodeError` from `Response.json()`; `protocolError` is the spec's
`ProtocolError` for a decode failure inside `expect_json`; the remaining
constructors model the corresponding Python built-in exceptions. -/
inductive PyError where
  | exn (msg : String)
  | requestError (status : Nat) (body : String)
  | jsonDecodeError
  | protocolError
  | typeError (msg : String)
  | keyError (key : String)
  | valueError (msg : String)
deriving DecidableEq, Repr

/-- Escaping of a single character in a JSON string literal, as performed by
`json.dumps` (faithful for printable ASCII content, which is all the client
ever serializes). -/
def jsonEscapeChar (c : Char) : String :=
  if c = '"' then "\\\""
  else if c = '\\' then "\\\\"
  else if c = '\n' then "\\n"
  else if c = '\t' then "\\t"
  else if c = '\r' then "\\r"
  else String.singleton c

mutual

/-- Models Python `json.dumps` with its default separators: strings are
double-quoted and escaped, lists are rendered as `[a, b]`, dicts as pairs
`key: value` between braces, booleans as `true`/`false`, `None` as `null`. -/
def jsonDumps : PyVal → String
  | .str s => "\"" ++ String.join (s.toList.map jsonEscapeChar) ++ "\""
  | .int n => toString n
  | .bool b => if b then "true" else "false"
  | .null => "null"
  | .list l => "[" ++ jsonDumpsList l ++ "]"
  | .dict kvs => "\x7b" ++ jsonDumpsDict kvs ++ "\x7d"

/-- Comma-separated rendering of a JSON array's elements. -/
def jsonDumpsList : List PyVal → String
  | [] => ""
  | [v] => jsonDumps v
  | v :: rest => jsonDumps v ++ ", " ++ jsonDumpsList rest

/-- Comma-separated rendering of a JSON object's entries. -/
def jsonDumpsDict : List (String × PyVal) → String
  | [] => ""
  | [(k, v)] => jsonDumps (.str k) ++ ": " ++ jsonDumps v
  | (k, v) :: rest => jsonDumps (.str k) ++ ": " ++ jsonDumps v ++ ", " ++ jsonDumpsDict rest

end

/-- Models Python `str()` as used inside f-strings: a string formats as itself,
integers and booleans and None as their Python renderings; containers (never
actually formatted by the client) are rendered in JSON style. -/
def pyFormat : PyVal → String
  | .str s => s
  | .int n => toString n
  | .bool b => if b then "True" else "False"
  | v => jsonDumps v

/-- Opaque keyword arguments forwarded to the transport layer (`**kwargs`). -/
abbrev Kwargs := List (String × String)

/-- Model of a `requests.Response`: HTTP status code, body text, and the JSON
parse of the body (`none` when the body is not valid JSON). The parse result
is carried on the response because the JSON parser is the Python standard
library, external to this repository. -/
structure Response where
  status : Nat
  text : String
  json : Option PyVal
deriving Repr

/-- Models `requests.Response.json()`: the parsed JSON body, or a
`json.JSONDecodeError` when the body is not valid JSON. -/
def Response.getJson (r : Response) : Except PyError PyVal :=
  match r.json with
  | some v => .ok v
  | none => .error .jsonDecodeError

/-- The 2xx success range of HTTP status codes. -/
def is2xx (status : Nat) : Bool := decide (200 ≤ status) && decide (status < 300)

/-- Modelled from the spec: `pylana.utils.handle_response` is imported by
logs.py but its module is not among the sources. Per the spec's response
envelope helpers, it inspects the HTTP status and any status outside the
success range raises `RequestError` carrying the status code and body,
before any body parsing; a success response is passed through. -/
def handle_response (r : Response) : Except PyError Response :=
  if is2xx r.status then .ok r else .error (.requestError r.status r.text)

/-- Modelled from the spec: `pylana.utils.expect_json` is imported by logs.py
but its module is not among the sources. Per the spec's response envelope
helpers, it decodes the body of a validated response as JSON; a JSON-decode
failure on an endpoint that promised JSON is a `ProtocolError`. -/
def expect_json (r : Response) : Except PyError PyVal :=
  match r.json with
  | some v => .ok v
  | none => .error .protocolError

/-- `LogsAPI.list_logs`, as decorated: `handle_response` validates the status
of the `GET /api/logs` response first, then `expect_json` decodes the body.
The listing response returned by the transport is the argument. -/
def list_logs (resp : Response) : Except PyError PyVal :=
  match handle_response resp with
  | .error e => .error e
  | .ok r => expect_json r

/-- Models `re.compile(contains)`: `None` (passed through `get_event_log` when
no name is supplied) raises `TypeError`; a string pattern compiles to itself. -/
def re_compile : Option String → Except PyError String
  | some p => .ok p
  | none => .error (.typeError "first argument must be string or compiled pattern")

/-- Models `re.Pattern.search` for the patterns the client is used with
(patterns free of regex metacharacters): such a pattern matches a string iff
it occurs in it as a contiguous substring. -/
def reSearch (pat s : String) : Bool := decide (pat.toList <:+: s.toList)

/-- Python iteration over a JSON value: lists yield their elements, dicts
their keys, strings their characters; other values are not iterable. -/
def pyIter : PyVal → Except PyError (List PyVal)
  | .list l => .ok l
  | .dict kvs => .ok (kvs.map (fun kv => .str kv.1))
  | .str s => .ok (s.toList.map (fun c => .str c.toString))
  | _ => .error (.typeError "object is not iterable")

/-- Python subscript `v[key]` with a string key: defined on dicts, raising
`KeyError` for a missing key and `TypeError` on non-dicts. -/
def pySubscript (v : PyVal) (key : String) : Except PyError PyVal :=
  match v with
  | .dict kvs =>
    match kvs.lookup key with
    | some w => .ok w
    | none => .error (.keyError key)
  | _ => .error (.typeError "object is not subscriptable")

/-- `rc.search(log['name'])` requires the name to be a string, else `TypeError`. -/
def reSearchVal (pat : String) (v : PyVal) : Except PyError Bool :=
  match v with
  | .str s => .ok (reSearch pat s)
  | _ => .error (.typeError "expected string or bytes-like object")

/-- The comprehension in `get_log_ids`:
`[log['id'] for log in resp.json() if rc.search(log['name'])]`, evaluated
left to right with Python exception semantics. -/
def extractLogIds (pat : String) : List PyVal → Except PyError (List PyVal)
  | [] => .ok []
  | log :: rest =>
    match pySubscript log "name" with
    | .error e => .error e
    | .ok nm =>
      match reSearchVal pat nm with
      | .error e => .error e
      | .ok false => extractLogIds pat rest
      | .ok true =>
        match pySubscript log "id" with
        | .error e => .error e
        | .ok i =>
          match extractLogIds pat rest with
          | .error e => .error e
          | .ok tail => .ok (i :: tail)

/-- `LogsAPI.get_log_ids`: the raw `GET /api/logs` response is the argument;
the pattern is compiled (after the GET, before the body is read), then the
body is parsed as JSON and the matching ids are collected. No status
validation is performed by this method. -/
def get_log_ids (resp : Response) (contains : Option String) :
    Except PyError (List PyVal) :=
  match re_compile contains with
  | .error e => .error e
  | .ok pat =>
    match resp.getJson with
    | .error e => .error e
    | .ok v =>
      match pyIter v with
      | .error e => .error e
      | .ok items => extractLogIds pat items

/-- Python rendering of an optional string inside an f-string. -/
def pyOptFormat : Option String → String
  | some s => s
  | none => "None"

/-- `LogsAPI.get_log_id`: resolves a log name via `get_log_ids`; the unpacking
`[log_id] = logs_matching` raises, and the handler re-raises a bare
`Exception` reporting the number of matches, unless exactly one log matched. -/
def get_log_id (listing : Response) (log_name : Option String) :
    Except PyError PyVal :=
  match get_log_ids listing log_name with
  | .error e => .error e
  | .ok logs_matching =>
    match logs_matching with
    | [i] => .ok i
    | l => .error (.exn ("Found " ++ toString l.length ++
        " logs with the name " ++ pyOptFormat log_name))

/-- A semantics argument, per the annotation `Union[str, list]` on
`prepare_semantics` and the upload methods: either an already-serialized
string or a list of descriptor values. -/
inductive SemArg where
  | str (s : String)
  | list (l : List PyVal)
deriving Repr

/-- `prepare_semantics`: `json.dumps(semantics) if not isinstance(semantics,
str) else semantics` — a string passes through, a list is JSON-serialized. -/
def prepare_semantics : SemArg → String
  | .str s => s
  | .list l => jsonDumps (.list l)

/-- Python truthiness of a semantics argument: empty strings and empty lists
are falsy. -/
def SemArg.truthy : SemArg → Bool
  | .str s => !(s == "")
  | .list l => !(l.isEmpty)

/-- Python truthiness of an optional string argument (`None` and `""` are
falsy). -/
def pyTruthyStr : Option String → Bool
  | some s => !(s == "")
  | none => false

/-- Python truthiness of an optional semantics argument (`None`, `""` and
`[]` are falsy). -/
def pyTruthySem : Option SemArg → Bool
  | some a => a.truthy
  | none => false

/-- One file part of a multipart request: the tuple
`(filename, content, mime type)` as assembled by `upload_event_log`. -/
structure FilePart where
  filename : String
  content : String
  mime : String
deriving DecidableEq, Repr

/-- The multipart POST assembled by `upload_event_log`: the `files` mapping,
the `data` (form fields) mapping — both in Python dict insertion order —
the endpoint path, and the pass-through keyword arguments handed to
`self.post`. -/
structure UploadRequest where
  files : List (String × FilePart)
  data : List (String × String)
  path : String
  kwargs : Kwargs
deriving DecidableEq, Repr

/-- `LogsAPI.upload_event_log`: assembles the multipart request. The required
parts are the event CSV file and the event semantics (with log name and the
literal time zone); the case-attribute file part is added when
`case_attributes` is truthy, and the case-semantics field is added when
`case_attribute_semantics` is truthy — two independent conditions, as in the
source. Dict merging `{**required, **extra}` appends the new key. -/
def upload_event_log (name : String) (log : String) (log_semantics : SemArg)
    (case_attributes : Option String) (case_attribute_semantics : Option SemArg)
    (kwargs : Kwargs) : UploadRequest :=
  let files_required : List (String × FilePart) :=
    [("eventCSVFile", ⟨name, log, "text/csv"⟩)]
  let semantics_required : List (String × String) :=
    [("eventSemantics", prepare_semantics log_semantics),
     ("logName", name),
     ("timeZone", "Europe/Berlin")]
  let files :=
    if pyTruthyStr case_attributes then
      files_required ++
        [("caseAttributeFile",
          ⟨name ++ "_case_attributes", case_attributes.getD "", "text/csv"⟩)]
    else files_required
  let semantics :=
    if pyTruthySem case_attribute_semantics then
      semantics_required ++
        [("caseSemantics",
          prepare_semantics (case_attribute_semantics.getD (.str "")))]
    else semantics_required
  ⟨files, semantics, "/api/logs/csv-case-attributes-event-semantics", kwargs⟩

/-- Modelled from the spec: `create_event_semantics_from_df` and
`create_case_semantics_from_df` live in `pylana.semantics`, which is not
among the sources; per the spec they return a transformed table and an
inferred descriptor list. `upload_event_log_df` serializes both tables to
CSV text and delegates to `upload_event_log`; the serialized tables and the
inferred descriptors appear here as arguments. -/
def upload_event_log_df (name : String) (dfEventsCsv : String)
    (event_semantics : List PyVal) (dfCasesCsv : String)
    (case_semantics : List PyVal) (kwargs : Kwargs) : UploadRequest :=
  upload_event_log name dfEventsCsv (.list event_semantics)
    (some dfCasesCsv) (some (.list case_semantics)) kwargs

/-- A Python text/binary stream handed to `upload_event_log_stream`: its
content, the current read position, whether it has been closed, and its
Python object hash (used by the source to generate the upload name). -/
structure Stream where
  content : String
  pos : Nat
  closed : Bool
  hsh : Int
deriving DecidableEq, Repr

/-- Python `stream.read()`: raises `ValueError` on a closed stream, otherwise
returns everything from the current position and advances the position to
the end. The stream is not closed and not otherwise modified. -/
def Stream.read (s : Stream) : Except PyError (String × Stream) :=
  if s.closed then .error (.valueError "I/O operation on closed file")
  else .ok (s.content.drop s.pos, { s with pos := s.content.length })

/-- `LogsAPI.upload_event_log_stream`: generates the upload name from the
prefix and the hash of the log stream, reads both streams, and delegates to
`upload_event_log` with the case content and semantics passed positionally.
Result: the assembled request together with the streams after reading. -/
def upload_event_log_stream (log : Stream) (log_semantics : SemArg)
    (case : Stream) (case_semantics : SemArg) (pre : String) (kwargs : Kwargs) :
    Except PyError (UploadRequest × Stream × Stream) :=
  let name := pre ++ toString log.hsh
  match log.read with
  | .error e => .error e
  | .ok (logData, log1) =>
    match case.read with
    | .error e => .error e
    | .ok (caseData, case1) =>
      .ok (upload_event_log name logData log_semantics
             (some caseData) (some case_semantics) kwargs,
           log1, case1)

/-- A network call issued by an operation: HTTP method, path, and the
keyword arguments forwarded to the transport for that call. -/
structure Call where
  method : String
  path : String
  kwargs : Kwargs
deriving DecidableEq, Repr

/-- `LogsAPI.delete_log`: issues `DELETE /api/logs/{log_id}` with the given
keyword arguments; the `handle_response` decorator raises `RequestError` on
a non-2xx deletion response. `deleteResp` is the transport's response for
deleting the given id. Returns the outcome and the issued call. -/
def delete_log (deleteResp : PyVal → Response) (logId : PyVal)
    (kwargs : Kwargs) : Except PyError Response × Call :=
  let r := deleteResp logId
  (handle_response r, ⟨"DELETE", "/api/logs/" ++ pyFormat logId, kwargs⟩)

/-- The list comprehension `[self.delete_log(log_id) for log_id in log_ids]`
under Python exception semantics: deletions run sequentially; the first
raising `delete_log` aborts the comprehension and propagates its exception,
so the later ids are never deleted. Also returns the issued calls; each
`delete_log` is invoked without keyword arguments, as in the source. -/
def run_deletes (deleteResp : PyVal → Response) :
    List PyVal → Except PyError (List Response) × List Call
  | [] => (.ok [], [])
  | i :: rest =>
    match delete_log deleteResp i [] with
    | (.error e, call) => (.error e, [call])
    | (.ok r, call) =>
      match run_deletes deleteResp rest with
      | (.ok rs, calls) => (.ok (r :: rs), call :: calls)
      | (.error e, calls) => (.error e, call :: calls)

/-- `LogsAPI.delete_logs`: resolves the matching ids via `get_log_ids`
(forwarding the keyword arguments to that listing request), then deletes
them one by one; each `delete_log` call receives no keyword arguments.
Returns the outcome and the trace of issued calls, the listing first. -/
def delete_logs (listing : Response) (deleteResp : PyVal → Response)
    (contains : String) (kwargs : Kwargs) :
    Except PyError (List Response) × List Call :=
  match get_log_ids listing (some contains) with
  | .error e => (.error e, [⟨"GET", "/api/logs", kwargs⟩])
  | .ok log_ids =>
    let (res, calls) := run_deletes deleteResp log_ids
    (res, ⟨"GET", "/api/logs", kwargs⟩ :: calls)

/-- `LogsAPI.get_event_log`: `log_id = log_id or self.get_log_id(log_name)`
resolves the id (a falsy `log_id` falls back to name resolution, which
raises `TypeError` from `re.compile(None)` when no name was supplied); the
CSV for the resolved id is then fetched. Modelled from the spec:
`self.get_event_csv` is not defined in the sources (the base `API` class is
not under src); per the spec it retrieves the enriched CSV for a log id, and
is passed here as the `fetchCsv` parameter. The pandas CSV parsing of the
body is external and not modelled. -/
def get_event_log (listing : Response) (fetchCsv : PyVal → Response)
    (log_name : Option String) (log_id : Option String) :
    Except PyError Response :=
  let resolved : Except PyError PyVal :=
    if pyTruthyStr log_id then .ok (.str (log_id.getD ""))
    else get_log_id listing log_name
  match resolved with
  | .error e => .error e
  | .ok i => .ok (fetchCsv i)

/-- A log catalog entry `{id, name}` as returned by the listing endpoint. -/
structure LogRef where
  id : String
  name : String
deriving DecidableEq, Repr

/-- The JSON value of one catalog entry. -/
def LogRef.toVal (l : LogRef) : PyVal := .dict [("id", .str l.id), ("name", .str l.name)]

/-- The JSON value of a whole catalog. -/
def catalogVal (c : List LogRef) : PyVal := .list (c.map LogRef.toVal)

/-- A well-formed 200 listing response for a catalog: the body is the JSON
serialization of the catalog and parses back to it. -/
def mkCatalogResponse (c : List LogRef) : Response :=
  ⟨200, jsonDumps (catalogVal c), some (catalogVal c)⟩

/-- The catalog entries whose names match the pattern (substring search, as
in `get_log_ids`). -/
def matching_logs (c : List LogRef) (pat : String) : List LogRef :=
  c.filter (fun l => reSearch pat l.name)

/-- The delete call issued by `delete_logs` for one catalog entry: no keyword
arguments are passed, as in the source. -/
def deleteCallOf (l : LogRef) : Call := ⟨"DELETE", "/api/logs/" ++ l.id, []⟩

/-- Whether an association list carries a given key. -/
def hasKey {α : Type} (l : List (String × α)) (k : String) : Bool :=
  l.any (fun kv => kv.1 == k)

/-! ## Structural lemmas -/

/-- On a well-formed catalog, the comprehension of `get_log_ids` collects
exactly the ids of the entries whose names match the pattern. -/
theorem extractLogIds_catalog (p : String) (c : List LogRef) :
    extractLogIds p (c.map LogRef.toVal)
      = .ok ((matching_logs c p).map fun l => PyVal.str l.id) := by
  induction c with
  | nil => rfl
  | cons l rest ih =>
    by_cases h : reSearch p l.name
    · simp [extractLogIds, pySubscript, LogRef.toVal, reSearchVal, matching_logs,
        List.filter_cons, h, ih, List.lookup]
    · simp [extractLogIds, pySubscript, LogRef.toVal, reSearchVal, matching_logs,
        List.filter_cons, h, ih, List.lookup]

/-- `get_log_ids` on a well-formed 200 listing returns the ids of the
matching catalog entries. -/
theorem get_log_ids_catalog (c : List LogRef) (p : String) :
    get_log_ids (mkCatalogResponse c) (some p)
      = .ok ((matching_logs c p).map fun l => PyVal.str l.id) := by
  simp [get_log_ids, mkCatalogResponse, re_compile, Response.getJson, pyIter,
    catalogVal, extractLogIds_catalog]

/-- When every matched deletion returns a success status, the deletion loop
returns the per-item responses and issues one delete per id. -/
theorem run_deletes_all_success (dr : PyVal → Response) (ids : List LogRef)
    (h : ∀ l ∈ ids, is2xx (dr (.str l.id)).status = true) :
    run_deletes dr (ids.map fun l => PyVal.str l.id)
      = (.ok (ids.map fun l => dr (.str l.id)), ids.map deleteCallOf) := by
  induction ids with
  | nil => rfl
  | cons l rest ih =>
    have hl := h l (by simp)
    have hrest := ih (fun x hx => h x (by simp [hx]))
    simp [run_deletes, delete_log, handle_response, hl, hrest, deleteCallOf, pyFormat]

/-- The first failing deletion aborts the loop: the exception from
`delete_log`'s `handle_response` wrapper propagates, the ids after the
failing one are never deleted, and no response list is produced. -/
theorem run_deletes_first_failure (dr : PyVal → Response)
    (pre : List LogRef) (bad : LogRef) (post : List LogRef)
    (hpre : ∀ l ∈ pre, is2xx (dr (.str l.id)).status = true)
    (hbad : is2xx (dr (.str bad.id)).status = false) :
    run_deletes dr ((pre ++ bad :: post).map fun l => PyVal.str l.id)
      = (.error (.requestError (dr (.str bad.id)).status (dr (.str bad.id)).text),
         (pre ++ [bad]).map deleteCallOf) := by
  induction pre with
  | nil => simp [run_deletes, delete_log, handle_response, hbad, deleteCallOf, pyFormat]
  | cons l rest ih =>
    have hl := hpre l (by simp)
    have hrest := ih (fun x hx => hpre x (by simp [hx]))
    simp only [List.map_append, List.map_cons] at hrest
    simp [run_deletes, delete_log, handle_response, hl, hrest, deleteCallOf, pyFormat]

/-- Every delete call issued by the deletion loop carries no keyword
arguments, because the source invokes `self.delete_log(log_id)` bare. -/
theorem run_deletes_calls_no_kwargs (dr : PyVal → Response) (ids : List PyVal) :
    ∀ call ∈ (run_deletes dr ids).2, call.kwargs = [] := by
  induction ids with
  | nil => simp [run_deletes]
  | cons i rest ih =>
    intro call hc
    unfold run_deletes at hc
    rcases h : delete_log dr i [] with ⟨res, c0⟩
    have hc0 : c0.kwargs = [] := by
      have := congrArg Prod.snd h
      simp [delete_log] at this
      simp [← this]
    rw [h] at hc
    rcases res with e | r
    · simp at hc; subst hc; exact hc0
    · rcases h2 : run_deletes dr rest with ⟨res2, calls2⟩
      rw [h2] at hc
      rcases res2 with e2 | rs
      · simp at hc
        rcases hc with hc | hc
        · subst hc; exact hc0
        · exact ih call (by rw [h2]; exact hc)
      · simp at hc
        rcases hc with hc | hc
        · subst hc; exact hc0
        · exact ih call (by rw [h2]; exact hc)

/-! ## Claims -/

/-- Claim C1, counterexample: calling `upload_event_log` with truthy
`case_attributes` and absent `case_attribute_semantics` produces a request
whose multipart body contains the case-attribute file part but not the
case-semantics part — the two case parts are not a matched pair for this
combination of arguments. -/
theorem upload_event_log_case_parts_unmatched :
    hasKey (upload_event_log "n" "log" (.str "es") (some "ca") Option.none []).files
        "caseAttributeFile" = true ∧
    hasKey (upload_event_log "n" "log" (.str "es") (some "ca") Option.none []).data
        "caseSemantics" = false ∧
    ¬ (hasKey (upload_event_log "n" "log" (.str "es") (some "ca") Option.none []).files
          "caseAttributeFile" = true ↔
       hasKey (upload_event_log "n" "log" (.str "es") (some "ca") Option.none []).data
          "caseSemantics" = true) := by
  refine ⟨rfl, rfl, ?_⟩
  decide

/-- Claim C1, amended: for every call to `upload_event_log`, the assembled
multipart request always contains the event CSV file part and the
event-semantics part; the case-attribute file part is present exactly when
the `case_attributes` argument is truthy, and the case-semantics part is
present exactly when the `case_attribute_semantics` argument is truthy —
two independent conditions, so the case parts appear as a matched pair only
when the truthiness of the two arguments agrees. -/
theorem upload_event_log_part_presence (name log : String) (ls : SemArg)
    (ca : Option String) (cas : Option SemArg) (kw : Kwargs) :
    hasKey (upload_event_log name log ls ca cas kw).files "eventCSVFile" = true ∧
    hasKey (upload_event_log name log ls ca cas kw).data "eventSemantics" = true ∧
    hasKey (upload_event_log name log ls ca cas kw).files "caseAttributeFile"
      = pyTruthyStr ca ∧
    hasKey (upload_event_log name log ls ca cas kw).data "caseSemantics"
      = pyTruthySem cas := by
  by_cases h1 : pyTruthyStr ca <;> by_cases h2 : pyTruthySem cas <;>
    simp [upload_event_log, hasKey, h1, h2]

/-- Claim C2, counterexample: `get_log_ids` on a non-2xx listing response
whose body is not valid JSON attempts to parse the body (the result is the
JSON-decode exception), and no `RequestError` is raised — the listing body
is read without any prior status validation. -/
theorem get_log_ids_parses_body_of_non2xx :
    get_log_ids ⟨500, "oops", Option.none⟩ (some "a") = .error .jsonDecodeError := rfl

/-- Claim C2, amended: operations wrapped with `handle_response` raise
`RequestError` carrying status and body on every non-2xx response, before
any body parsing (`list_logs` is the wrapped listing operation); but
`get_log_ids` is not wrapped: its result is entirely independent of the
response status, so a non-2xx listing leads straight to a body-parse
attempt rather than a `RequestError`. -/
theorem status_validation_amended :
    (∀ r : Response, is2xx r.status = false →
        list_logs r = .error (.requestError r.status r.text)) ∧
    (∀ (r : Response) (s : Nat) (p : Option String),
        get_log_ids ⟨s, r.text, r.json⟩ p = get_log_ids r p) := by
  constructor
  · intro r h
    simp [list_logs, handle_response, h]
  · intro r s p
    rcases p with _ | p <;> simp [get_log_ids, re_compile, Response.getJson]

/-- Claim C2, witness: a concrete 500 response makes the wrapped listing
operation return `RequestError` with that status and body. -/
theorem status_validation_amended_witness :
    list_logs ⟨500, "oops", Option.none⟩ = .error (.requestError 500 "oops") :=
  status_validation_amended.1 ⟨500, "oops", Option.none⟩ (by decide)

/-- Claim C3: for every log catalog and every name, `get_log_id` raises the
ambiguity exception (the bare `Exception` reporting the number of matches,
which the spec names `AmbiguousNameError`) exactly when the number of
matching logs differs from one; it returns normally only on a unique match. -/
theorem get_log_id_ambiguous_iff_not_unique (c : List LogRef) (nm : String) :
    get_log_id (mkCatalogResponse c) (some nm)
        = .error (.exn ("Found " ++ toString (matching_logs c nm).length ++
            " logs with the name " ++ nm))
      ↔ (matching_logs c nm).length ≠ 1 := by
  unfold get_log_id
  rw [get_log_ids_catalog]
  rcases hm : matching_logs c nm with _ | ⟨a, _ | ⟨b, t⟩⟩ <;> simp [pyOptFormat]

/-- Claim C4, counterexample: in a catalog with logs named `abc` and `xabcy`,
exactly one log's name is exactly equal to the supplied name `abc`, yet
`get_log_id` raises the ambiguity exception, because resolution is by
`re.search` (substring/regex match), not exact name equality, and the log
whose name merely contains `abc` also counts as a match. -/
theorem get_log_id_exact_name_counterexample :
    ((([⟨"1", "abc"⟩, ⟨"2", "xabcy"⟩] : List LogRef).filter
        (fun l => l.name == "abc")).map LogRef.id = ["1"]) ∧
    get_log_id (mkCatalogResponse [⟨"1", "abc"⟩, ⟨"2", "xabcy"⟩]) (some "abc")
      = .error (.exn "Found 2 logs with the name abc") :=
  ⟨rfl, rfl⟩

/-- Claim C4, amended: `get_log_id` resolves by pattern search of the
supplied name against the log names (substring/regex match via
`get_log_ids`), not by exact equality: when exactly one log's name matches
the supplied name as a pattern, that log's id is returned; logs whose names
contain the supplied name as a substring do affect the result and can make
the lookup ambiguous. -/
theorem get_log_id_unique_pattern_match (c : List LogRef) (nm : String)
    (l : LogRef) (h : matching_logs c nm = [l]) :
    get_log_id (mkCatalogResponse c) (some nm) = .ok (.str l.id) := by
  unfold get_log_id
  rw [get_log_ids_catalog, h]
  rfl

/-- Claim C4, witness: in a one-log catalog the name resolves to that log's
id. -/
theorem get_log_id_unique_pattern_match_witness :
    get_log_id (mkCatalogResponse [⟨"1", "abc"⟩]) (some "abc") = .ok (.str "1") :=
  get_log_id_unique_pattern_match [⟨"1", "abc"⟩] "abc" ⟨"1", "abc"⟩ rfl

/-- Claim C5, counterexample: with two matched logs whose first deletion
returns 500, `delete_logs` propagates `RequestError` from the first
deletion instead of returning a list of per-item outcomes, and the second
delete request is never issued (the trace holds the listing and one delete). -/
theorem delete_logs_aborts_on_first_failure :
    delete_logs (mkCatalogResponse [⟨"1", "a1"⟩, ⟨"2", "a2"⟩])
      (fun i => match i with
        | .str "1" => ⟨500, "boom", Option.none⟩
        | _ => ⟨204, "", Option.none⟩) "a" []
      = (.error (.requestError 500 "boom"),
         [⟨"GET", "/api/logs", []⟩, ⟨"DELETE", "/api/logs/1", []⟩]) := rfl

/-- Claim C5, amended: `delete_logs` issues one delete per matched log id,
sequentially; when every deletion returns a success status the caller
receives the full list of per-deletion responses, but a non-2xx deletion
partway through raises `RequestError` from `delete_log`'s
`handle_response` wrapper, aborting the remaining deletions, so on partial
failure the caller receives the exception rather than per-item outcomes. -/
theorem delete_logs_sequential_outcomes (c : List LogRef)
    (dr : PyVal → Response) (pat : String) (kw : Kwargs) :
    ((∀ l ∈ matching_logs c pat, is2xx (dr (.str l.id)).status = true) →
      delete_logs (mkCatalogResponse c) dr pat kw
        = (.ok ((matching_logs c pat).map fun l => dr (.str l.id)),
           ⟨"GET", "/api/logs", kw⟩ :: (matching_logs c pat).map deleteCallOf)) ∧
    (∀ pre bad post, matching_logs c pat = pre ++ bad :: post →
      (∀ l ∈ pre, is2xx (dr (.str l.id)).status = true) →
      is2xx (dr (.str bad.id)).status = false →
      delete_logs (mkCatalogResponse c) dr pat kw
        = (.error (.requestError (dr (.str bad.id)).status (dr (.str bad.id)).text),
           ⟨"GET", "/api/logs", kw⟩ :: (pre ++ [bad]).map deleteCallOf)) := by
  constructor
  · intro h
    simp [delete_logs, get_log_ids_catalog, run_deletes_all_success dr _ h]
  · intro pre bad post hsplit hpre hbad
    have hrun := run_deletes_first_failure dr pre bad post hpre hbad
    simp only [List.map_append, List.map_cons] at hrun
    simp [delete_logs, get_log_ids_catalog, hsplit, hrun]

/-- Claim C5, witness: with the second of two matched deletions failing, the
first delete is issued and the operation ends in `RequestError`. -/
theorem delete_logs_sequential_outcomes_witness :
    delete_logs (mkCatalogResponse [⟨"1", "a1"⟩, ⟨"2", "a2"⟩])
      (fun i => match i with
        | .str "2" => ⟨500, "boom", Option.none⟩
        | _ => ⟨204, "", Option.none⟩) "a" []
      = (.error (.requestError 500 "boom"),
         [⟨"GET", "/api/logs", []⟩, ⟨"DELETE", "/api/logs/1", []⟩,
          ⟨"DELETE", "/api/logs/2", []⟩]) :=
  (delete_logs_sequential_outcomes [⟨"1", "a1"⟩, ⟨"2", "a2"⟩]
      (fun i => match i with
        | .str "2" => ⟨500, "boom", Option.none⟩
        | _ => ⟨204, "", Option.none⟩) "a" []).2
    [⟨"1", "a1"⟩] ⟨"2", "a2"⟩ [] rfl (by decide) (by decide)

/-- Claim C6, counterexample: calling `get_event_log` with both arguments
omitted raises `TypeError` (from `re.compile(None)` inside the name
lookup), not `NotFoundError`; no code path of the client raises a
dedicated not-found error. -/
theorem get_event_log_no_arguments_type_error :
    get_event_log (mkCatalogResponse []) (fun _ => ⟨200, "", Option.none⟩)
        Option.none Option.none
      = .error (.typeError "first argument must be string or compiled pattern") := rfl

/-- Claim C6, amended: whenever neither a truthy log id nor a name that
resolves uniquely is supplied, `get_event_log` fails by raising an error —
`TypeError` when no name is supplied at all, and the ambiguity exception
(the bare `Exception` reporting the number of matches) when the supplied
name does not match exactly one log; no `NotFoundError` is raised. -/
theorem get_event_log_failure_modes (c : List LogRef)
    (fetchCsv : PyVal → Response) (log_name log_id : Option String)
    (hid : pyTruthyStr log_id = false) :
    (log_name = Option.none →
      get_event_log (mkCatalogResponse c) fetchCsv log_name log_id
        = .error (.typeError "first argument must be string or compiled pattern")) ∧
    (∀ nm, log_name = some nm → (matching_logs c nm).length ≠ 1 →
      get_event_log (mkCatalogResponse c) fetchCsv log_name log_id
        = .error (.exn ("Found " ++ toString (matching_logs c nm).length ++
            " logs with the name " ++ nm))) := by
  constructor
  · intro hn
    subst hn
    simp [get_event_log, hid, get_log_id, get_log_ids, re_compile]
  · intro nm hn hcount
    subst hn
    have := get_log_ids_catalog c nm
    simp [get_event_log, hid, get_log_id, this, pyOptFormat]
    rcases hm : matching_logs c nm with _ | ⟨a, _ | ⟨b, t⟩⟩ <;>
      simp [hm] at hcount ⊢

/-- Claim C6, witness: a name matching no log in an empty catalog makes
`get_event_log` raise the ambiguity exception for zero matches. -/
theorem get_event_log_failure_modes_witness :
    get_event_log (mkCatalogResponse []) (fun _ => ⟨200, "", Option.none⟩)
        (some "x") Option.none
      = .error (.exn "Found 0 logs with the name x") :=
  (get_event_log_failure_modes [] (fun _ => ⟨200, "", Option.none⟩)
      (some "x") Option.none rfl).2 "x" rfl (by decide)

/-- Claim C7, counterexample: `delete_logs` called with keyword arguments
forwards them to the listing request only; the issued delete request
carries no keyword arguments, so the options are not forwarded unchanged
to every network call the operation makes. -/
theorem delete_logs_kwargs_not_forwarded_to_deletes :
    (delete_logs (mkCatalogResponse [⟨"1", "a1"⟩])
        (fun _ => ⟨204, "", Option.none⟩) "a" [("timeout", "5")]).2
      = [⟨"GET", "/api/logs", [("timeout", "5")]⟩, ⟨"DELETE", "/api/logs/1", []⟩]
    ∧ ([("timeout", "5")] : Kwargs) ≠ [] := by
  constructor
  · rfl
  · decide

/-- Claim C7, amended: single-request write operations forward the
pass-through transport options unchanged to their network call
(`upload_event_log` hands its keyword arguments to `self.post`), and
`delete_logs` forwards them to the initial listing request; but every
individual delete request issued by `delete_logs` is made without them. -/
theorem transport_options_forwarding (c : List LogRef)
    (dr : PyVal → Response) (pat : String) (kw : Kwargs) (name log : String)
    (ls : SemArg) (ca : Option String) (cas : Option SemArg) :
    ((delete_logs (mkCatalogResponse c) dr pat kw).2.head?
        = some ⟨"GET", "/api/logs", kw⟩) ∧
    (∀ call ∈ ((delete_logs (mkCatalogResponse c) dr pat kw).2).tail,
        call.kwargs = []) ∧
    ((upload_event_log name log ls ca cas kw).kwargs = kw) := by
  refine ⟨?_, ?_, ?_⟩
  · simp [delete_logs, get_log_ids_catalog]
  · intro call hc
    have h2 : ((delete_logs (mkCatalogResponse c) dr pat kw).2).tail
        = (run_deletes dr ((matching_logs c pat).map fun l => PyVal.str l.id)).2 := by
      simp [delete_logs, get_log_ids_catalog]
    rw [h2] at hc
    exact run_deletes_calls_no_kwargs dr _ call hc
  · by_cases h1 : pyTruthyStr ca <;> by_cases h2 : pyTruthySem cas <;>
      simp [upload_event_log, h1, h2]

/-- Claim C7, witness: the listing call of a concrete `delete_logs`
invocation carries the passed options, and its delete call carries none. -/
theorem transport_options_forwarding_witness :
    (delete_logs (mkCatalogResponse [⟨"1", "a1"⟩])
        (fun _ => ⟨204, "", Option.none⟩) "a" [("timeout", "5")]).2.head?
      = some ⟨"GET", "/api/logs", [("timeout", "5")]⟩ ∧
    (⟨"DELETE", "/api/logs/1", []⟩ : Call).kwargs = [] :=
  ⟨(transport_options_forwarding [⟨"1", "a1"⟩] (fun _ => ⟨204, "", Option.none⟩)
      "a" [("timeout", "5")] "n" "l" (.str "e") Option.none Option.none).1,
   (transport_options_forwarding [⟨"1", "a1"⟩] (fun _ => ⟨204, "", Option.none⟩)
      "a" [("timeout", "5")] "n" "l" (.str "e") Option.none Option.none).2.1
     ⟨"DELETE", "/api/logs/1", []⟩ (by decide)⟩

/-- Claim C8: `upload_event_log_stream` on open streams reads both streams
and succeeds; afterwards both streams are exactly the input streams with
only the read position advanced to the end — in particular they remain
open (not closed) and their content and identity are unchanged. -/
theorem upload_event_log_stream_preserves_streams (log : Stream) (ls : SemArg)
    (case : Stream) (cs : SemArg) (pre : String) (kw : Kwargs)
    (hlog : log.closed = false) (hcase : case.closed = false) :
    upload_event_log_stream log ls case cs pre kw
      = .ok (upload_event_log (pre ++ toString log.hsh)
               (log.content.drop log.pos) ls
               (some (case.content.drop case.pos)) (some cs) kw,
             { log with pos := log.content.length },
             { case with pos := case.content.length }) := by
  simp [upload_event_log_stream, Stream.read, hlog, hcase]

/-- Claim C8, witness: uploading from two concrete open streams leaves both
streams open with only their positions advanced. -/
theorem upload_event_log_stream_preserves_streams_witness :
    upload_event_log_stream ⟨"ab", 0, false, 3⟩ (.str "e") ⟨"cd", 0, false, 4⟩
        (.str "c") "p" []
      = .ok (upload_event_log "p3" "ab" (.str "e") (some "cd") (some (.str "c")) [],
             ⟨"ab", 2, false, 3⟩, ⟨"cd", 2, false, 4⟩) := by
  have h := upload_event_log_stream_preserves_streams ⟨"ab", 0, false, 3⟩ (.str "e")
    ⟨"cd", 0, false, 4⟩ (.str "c") "p" [] rfl rfl
  simpa using h

/-- Claim C9: every upload that goes through `upload_event_log` — including
the dataframe and stream entry points — carries the form field `timeZone`
with the fixed value `Europe/Berlin`, independent of the log name, the
tables, the semantics, and all keyword arguments. -/
theorem upload_time_zone_fixed :
    (∀ (name log : String) (ls : SemArg) (ca : Option String)
        (cas : Option SemArg) (kw : Kwargs),
      (upload_event_log name log ls ca cas kw).data.lookup "timeZone"
        = some "Europe/Berlin") ∧
    (∀ (name ec : String) (es : List PyVal) (cc : String) (cs : List PyVal)
        (kw : Kwargs),
      (upload_event_log_df name ec es cc cs kw).data.lookup "timeZone"
        = some "Europe/Berlin") ∧
    (∀ (log : Stream) (ls : SemArg) (case : Stream) (cs : SemArg)
        (pre : String) (kw : Kwargs) (req : UploadRequest) (l1 c1 : Stream),
      upload_event_log_stream log ls case cs pre kw = .ok (req, l1, c1) →
      req.data.lookup "timeZone" = some "Europe/Berlin") := by
  have base : ∀ (name log : String) (ls : SemArg) (ca : Option String)
      (cas : Option SemArg) (kw : Kwargs),
      (upload_event_log name log ls ca cas kw).data.lookup "timeZone"
        = some "Europe/Berlin" := by
    intro name log ls ca cas kw
    by_cases h1 : pyTruthyStr ca <;> by_cases h2 : pyTruthySem cas <;>
      simp [upload_event_log, h1, h2, List.lookup]
  refine ⟨base,
    fun name ec es cc cs kw => base name ec (.list es) (some cc) (some (.list cs)) kw,
    ?_⟩
  intro log ls case cs pre kw req l1 c1 h
  unfold upload_event_log_stream at h
  rcases hr : log.read with e | ⟨logData, log1⟩ <;> rw [hr] at h
  · exact absurd h (by simp)
  · rcases hc : case.read with e | ⟨caseData, case1⟩ <;> rw [hc] at h
    · exact absurd h (by simp)
    · simp only [Except.ok.injEq, Prod.mk.injEq] at h
      obtain ⟨hreq, -, -⟩ := h
      rw [← hreq]
      exact base _ _ _ _ _ _

/-- Claim C9, witness: a concrete stream upload produces a request whose
`timeZone` field is `Europe/Berlin`. -/
theorem upload_time_zone_fixed_witness :
    (upload_event_log "p3" "ab" (.str "e") (some "cd") (some (.str "c")) []).data.lookup
        "timeZone" = some "Europe/Berlin" :=
  upload_time_zone_fixed.2.2 ⟨"ab", 0, false, 3⟩ (.str "e") ⟨"cd", 0, false, 4⟩
    (.str "c") "p" []
    (upload_event_log "p3" "ab" (.str "e") (some "cd") (some (.str "c")) [])
    ⟨"ab", 2, false, 3⟩ ⟨"cd", 2, false, 4⟩ (by rfl)

/-- Claim C10: `prepare_semantics` is idempotent — reapplying it to its own
(string) result is the identity; on string inputs it is the identity and on
list inputs it returns the JSON serialization of the list. -/
theorem prepare_semantics_idempotent :
    (∀ x : SemArg,
      prepare_semantics (.str (prepare_semantics x)) = prepare_semantics x) ∧
    (∀ s : String, prepare_semantics (.str s) = s) ∧
    (∀ l : List PyVal, prepare_semantics (.list l) = jsonDumps (.list l)) :=
  ⟨fun _ => rfl, fun _ => rfl, fun _ => rfl⟩

end Pylana
